import Mathlib

/-
Verification development for the familyDD_bot repository
(src/familyDD_bot.py): a shallow embedding of its ledger
(`DataManager`) and of the guided-dialogue handlers of
`FamilyPointsBot`, together with theorems about the frozen claims.

Modelling conventions:
* Python dicts become association lists with first-match lookup and
  replace-first-or-append update, which matches dict semantics for the
  unique-key dicts the program uses.
* The Python code keys the `points` dict by `str(user_id)`.  Since
  `str` is injective on integers and the dict is only ever indexed at
  `str` of an id, we key by the integer id itself.
* Machine-independent values: Python ints become `Int`; timestamps
  (datetime values formatted and re-parsed with a fixed format) become
  `Int` instants ordered as the datetimes are.
* Telegram transport, logging and file IO are out of the embedded
  state; persistence is tracked where a claim needs it (the purge
  operation returns whether it saved).
-/

set_option maxHeartbeats 1000000

/-- First-match lookup in an integer-keyed association list
(Python `dict.get` / `dict[...]` access on `points`). -/
def pfind : List (Int × Int) → Int → Option Int
  | [], _ => none
  | p :: rest, k => if p.1 == k then some p.2 else pfind rest k

/-- Python `points.get(str(k), d)`. -/
def pget (m : List (Int × Int)) (k : Int) (d : Int) : Int :=
  match pfind m k with
  | some v => v
  | none => d

/-- Python `str(k) in points`. -/
def pmem (m : List (Int × Int)) (k : Int) : Bool :=
  (pfind m k).isSome

/-- Python `points[str(k)] = v`: replace the first (only) binding of the
key, or append a fresh binding, as dict assignment does. -/
def pset : List (Int × Int) → Int → Int → List (Int × Int)
  | [], k, v => [(k, v)]
  | p :: rest, k, v => if p.1 == k then (k, v) :: rest else p :: pset rest k v

/-- First-match lookup in the member registry
(Python `family_members.get(uid)`). -/
def mfind : List (Int × String) → Int → Option String
  | [], _ => none
  | p :: rest, k => if p.1 == k then some p.2 else mfind rest k

/-- Python `family_members.get(uid, fallback)`. -/
def member_name (members : List (Int × String)) (uid : Int) (fallback : String) : String :=
  match mfind members uid with
  | some n => n
  | none => fallback

/-- Model of `FamilyGoal` data class (name and points of the shared goal pool). -/
structure FamilyGoal where
  name : String
  points : Int
deriving DecidableEq, Repr

/-- One history entry as built by `DataManager.record_activity`.
The random `uuid4` id field is omitted (it is never read by the code
and is pure fresh-name generation). -/
structure Entry where
  timestamp : Int
  performer_id : Int
  performer : String
  action : String
  amount : Int
  reason : String
  target_id : Option Int
  target : Option String
  source_id : Option Int
  source : Option String
deriving DecidableEq, Repr

/-- In-memory state of `DataManager`: points, history, member registry
and the family goal. -/
structure DataState where
  family_members : List (Int × String)
  points : List (Int × Int)
  history : List Entry
  family_goal : FamilyGoal
deriving DecidableEq, Repr

/-- The compiled-in `initial_members` table of `DataManager.load_data`. -/
def initial_members : List (Int × String) :=
  [(15260416, "Papa"), (441113371, "Mama"), (1059153162, "Danya"),
   (5678069063, "Vlad"), (5863747570, "Tima")]

/-- The default state `load_data` builds when the data file is missing
or unreadable: initial members, all balances 0, empty history, goal
pool named Car with 0 points. -/
def default_state : DataState :=
  { family_members := initial_members
    points := initial_members.map (fun p => (p.1, 0))
    history := []
    family_goal := { name := "Car", points := 0 } }

/-- The fill loop at the end of `load_data`: every registered member
missing from `points` gets balance 0. -/
def fillPoints (members : List (Int × String)) (pts : List (Int × Int)) : List (Int × Int) :=
  members.foldl (fun acc p => if pmem acc p.1 then acc else pset acc p.1 0) pts

/-- Outcome of reading the durable JSON file in `load_data`:
the file is missing, the read or parse raises, or it parses to a dict
whose four keys are each present or absent (`data.get` defaults). -/
inductive LoadInput where
  | missing
  | corrupt
  | parsed (points : Option (List (Int × Int))) (history : Option (List Entry))
      (family_members : Option (List (Int × String))) (family_goal : Option FamilyGoal)

/-- Model of `DataManager.load_data`: missing file installs the defaults; any
exception while reading or parsing falls back to the defaults in the
`except` branch; a parsed dict takes each key with its `get` default
(`family_members` defaults to the compiled-in table) and then runs the
fill loop so every member has a points entry. -/
def load_data : LoadInput → DataState
  | .missing =>
      { default_state with points := fillPoints default_state.family_members default_state.points }
  | .corrupt => default_state
  | .parsed pts hist mems goal =>
      let m := mems.getD initial_members
      { family_members := m
        points := fillPoints m (pts.getD [])
        history := hist.getD []
        family_goal := goal.getD { name := "Car", points := 0 } }

/-- Model of `DataManager.record_activity`: append one history entry (and save).
Display names resolve through the registry with the same fallbacks as
the source (`"Car"` for target id −1, otherwise a synthesized label). -/
def record_activity (dm : DataState) (now performer_id : Int) (action : String)
    (amount : Int) (target_id source_id : Option Int) (reason : String) : DataState :=
  let entry : Entry :=
    { timestamp := now
      performer_id := performer_id
      performer := member_name dm.family_members performer_id ("User " ++ toString performer_id)
      action := action
      amount := amount
      reason := reason
      target_id := target_id
      target := target_id.map (fun t =>
        member_name dm.family_members t (if t == -1 then "Car" else "User " ++ toString t))
      source_id := source_id
      source := source_id.map (fun s =>
        member_name dm.family_members s ("User " ++ toString s)) }
  { dm with history := dm.history ++ [entry] }

/-- Model of `DataManager.purge_old_history` for cutoff `now − d`: keeps the
entries with timestamp at least the cutoff, saves exactly when the
list shrank, and — being annotated `-> None` with no return statement —
returns no count (third component, the Python return value, is `none`). -/
def purge_old_history (now d : Int) (history : List Entry) :
    List Entry × Bool × Option Int :=
  let cutoff := now - d
  let kept := history.filter (fun e => decide (cutoff ≤ e.timestamp))
  (kept, decide (kept.length < history.length), none)

/-- Model of `DataManager.add_member`: reject an already-registered id, else
register the member and initialize its balance to 0.  Returns the new
state, the success flag and the message of the source. -/
def add_member (dm : DataState) (user_id : Int) (name : String) :
    DataState × Bool × String :=
  if (mfind dm.family_members user_id).isSome then
    (dm, false, "User " ++ name ++ " (ID: " ++ toString user_id ++ ") already exists.")
  else
    ({ dm with
        family_members := dm.family_members ++ [(user_id, name)]
        points := pset dm.points user_id 0 },
      true, "Member added successfully.")

/-- Model of `BotUI.get_member_selection_keyboard`, as the list of selectable
account ids: every registered member other than `exclude_id`, plus the
Car/goal-pool pseudo-id −1 exactly when `include_car` is set.  (The
source also sorts buttons by display name and appends a Back button;
both affect presentation only, not which accounts are selectable.) -/
def get_member_selection_keyboard (members : List (Int × String))
    (exclude_id : Option Int) (include_car : Bool) : List Int :=
  (members.filter (fun p => exclude_id != some p.1)).map (fun p => p.1)
    ++ (if include_car then [-1] else [])

/-- The conversation states of the `ConversationHandler`
(`MAIN_MENU .. CONFIRM_ADD_MEMBER`). -/
inductive ConvState where
  | mainMenu
  | selectMemberAdd | enterAmountAdd | enterReasonAdd | confirmAdd
  | selectMemberSubtract | enterAmountSubtract | enterReasonSubtract | confirmSubtract
  | selectFromTransfer | selectToTransfer | enterAmountTransfer | enterReasonTransfer | confirmTransfer
  | addMemberName | addMemberId | confirmAddMember
deriving DecidableEq, Repr

/-- The five reply-keyboard texts that the regex filter of
`handle_main_menu` lets through. -/
inductive MenuChoice where
  | addPoints | subtractPoints | transferPoints | leaderboard | historyView
deriving DecidableEq, Repr

/-- The two callback payloads the confirmation keyboards can produce
(handler pattern `confirm|cancel_operation`). -/
inductive ConfirmData where
  | confirm | cancel_operation
deriving DecidableEq, Repr

/-- One inbound update, as the handler table distinguishes them:
the start and cancel commands, the add-member command, the `main_menu`
back callback, a member-selection callback, a confirmation callback,
and a plain text message. -/
inductive Input where
  | cmdStart | cmdCancel | cmdAddMember | backMain
  | selectMember (uid : Int)
  | confirmCb (d : ConfirmData)
  | text (s : String)
deriving DecidableEq, Repr

/-- Model of `context.user_data`: the per-user pending-request dictionary.
Each Python key becomes an optional field; a missing key is `none`. -/
structure UserData where
  actionType : Option MenuChoice
  targetId : Option Int
  targetName : Option String
  amount : Option Int
  reason : Option String
  fromId : Option Int
  fromName : Option String
  toId : Option Int
  toName : Option String
  newMemberName : Option String
  newMemberId : Option Int
deriving DecidableEq, Repr

/-- Model of `context.user_data.clear()` / a fresh session dictionary. -/
def emptyUD : UserData :=
  ⟨none, none, none, none, none, none, none, none, none, none, none⟩

/-- The message of the early sufficiency check, f-string
`"🛑 {name} has only {current_points} points."`. -/
def insufficientText (name : String) (pts : Int) : String :=
  "🛑 " ++ name ++ " has only " ++ toString pts ++ " points."

/-- The user-visible outcome kinds of one handler call.  Only the
insufficiency rejection carries its rendered text, because it is the
one message whose content a claim inspects. -/
inductive Output where
  | menuMsg | promptMsg | repromptMsg
  | insufficientMsg (text : String)
  | selfTransferMsg
  | successMsg | cancelMsg | errorMsg
deriving DecidableEq, Repr

/-- Result of one handler call: new shared ledger state, next
conversation state, new user_data, and what was reported. -/
abbrev HRes := DataState × ConvState × UserData × Output

/-- The whitespace Python `str.strip()` removes (the ASCII kinds). -/
def py_space (c : Char) : Bool :=
  c == ' ' || c == '\t' || c == '\n' || c == '\r'

/-- Model of `str.strip()` on the character list of a string. -/
def py_strip_chars (l : List Char) : List Char :=
  ((l.dropWhile py_space).reverse.dropWhile py_space).reverse

/-- Python `text.strip()`. -/
def py_strip (s : String) : String :=
  ⟨py_strip_chars s.data⟩

/-- The value of a nonempty all-digit character list, else `none`. -/
def py_digits_val (l : List Char) : Option Nat :=
  if l.isEmpty || !(l.all Char.isDigit) then none
  else some (l.foldl (fun acc c => acc * 10 + (c.toNat - Char.toNat '0')) 0)

/-- Python `int(text)`: surrounding whitespace is ignored, then an
optionally signed decimal integer, raising (here: `none`) otherwise. -/
def py_int (s : String) : Option Int :=
  match py_strip_chars s.data with
  | '-' :: rest => (py_digits_val rest).map (fun n => -(n : Int))
  | '+' :: rest => (py_digits_val rest).map (fun n => (n : Int))
  | l => (py_digits_val l).map (fun n => (n : Int))

/-- Python `not reason or reason.isdigit()` on an already-stripped
string: empty, or nonempty and all digits (`List.all` is `true` on the
empty list, which the first disjunct already covers). -/
def bad_reason (r : String) : Bool :=
  r.data.isEmpty || r.data.all Char.isDigit

/-- Which of the five menu texts a message is, if any (the regex filter
on the MAIN_MENU state). -/
def menuChoiceOf (s : String) : Option MenuChoice :=
  if s == "➕ Add Points" then some .addPoints
  else if s == "➖ Subtract Points" then some .subtractPoints
  else if s == "↔️ Transfer Points" then some .transferPoints
  else if s == "📊 Leaderboard" then some .leaderboard
  else if s == "📜 History" then some .historyView
  else none

/-- Model of `start_command`: clears the session dictionary and shows the menu. -/
def start_command (lg : DataState) : HRes :=
  (lg, .mainMenu, emptyUD, .menuMsg)

/-- Model of `cancel_action` (the `/cancel` fallback): clears the session
dictionary and returns to the menu; the ledger is untouched. -/
def cancel_action (lg : DataState) : HRes :=
  (lg, .mainMenu, emptyUD, .cancelMsg)

/-- Model of `handle_main_menu`: stores `action_type` and routes to the chosen
flow; leaderboard and history are read-only and stay at the menu. -/
def handle_main_menu (lg : DataState) (ud : UserData) (t : MenuChoice) : HRes :=
  let ud1 := { ud with actionType := some t }
  match t with
  | .addPoints => (lg, .selectMemberAdd, ud1, .promptMsg)
  | .subtractPoints => (lg, .selectMemberSubtract, ud1, .promptMsg)
  | .transferPoints => (lg, .selectFromTransfer, ud1, .promptMsg)
  | .leaderboard => (lg, .mainMenu, ud1, .promptMsg)
  | .historyView => (lg, .mainMenu, ud1, .promptMsg)

/-- Model of `select_member_add`: stores target id and display name (fallback
`"Car"` for −1, else `"Unknown"`) and asks for the amount. -/
def select_member_add (lg : DataState) (ud : UserData) (uid : Int) : HRes :=
  let nm := member_name lg.family_members uid (if uid == -1 then "Car" else "Unknown")
  (lg, .enterAmountAdd, { ud with targetId := some uid, targetName := some nm }, .promptMsg)

/-- Model of `enter_amount_add`: re-prompts on a non-integer or non-positive
amount; otherwise stores the amount and asks for the reason (reading
`target_name`, whose absence raises and lands on the error path that
clears the session). -/
def enter_amount_add (lg : DataState) (ud : UserData) (s : String) : HRes :=
  match py_int s with
  | none => (lg, .enterAmountAdd, ud, .repromptMsg)
  | some a =>
    if a ≤ 0 then (lg, .enterAmountAdd, ud, .repromptMsg)
    else
      match ud.targetName with
      | some _ => (lg, .enterReasonAdd, { ud with amount := some a }, .promptMsg)
      | none => (lg, .mainMenu, emptyUD, .errorMsg)

/-- Model of `enter_reason_add`: an empty-after-strip or digits-only reason
re-prompts in place; otherwise the reason is stored and confirmation is
requested (the confirmation prompt reads `amount` and `target_name`;
if either is missing the uncaught KeyError leaves the state as is). -/
def enter_reason_add (lg : DataState) (ud : UserData) (s : String) : HRes :=
  let reason := py_strip s
  if bad_reason reason then (lg, .enterReasonAdd, ud, .repromptMsg)
  else
    match ud.amount, ud.targetName with
    | some _, some _ => (lg, .confirmAdd, { ud with reason := some reason }, .promptMsg)
    | _, _ => (lg, .enterReasonAdd, ud, .errorMsg)

/-- Model of `confirm_add`: on `confirm`, validates that the four session fields
are present (else the session-data-lost path), then credits the goal
pool (target −1) or the target balance and records the activity; on
`cancel_operation` nothing changes.  All paths clear the session. -/
def confirm_add (now perf : Int) (lg : DataState) (ud : UserData) (d : ConfirmData) : HRes :=
  match d with
  | .confirm =>
    match ud.targetId, ud.amount, ud.reason, ud.targetName with
    | some t, some a, some r, some _ =>
      let lg1 :=
        if t == -1 then
          { lg with family_goal := { lg.family_goal with points := lg.family_goal.points + a } }
        else
          { lg with points := pset lg.points t (pget lg.points t 0 + a) }
      (record_activity lg1 now perf "add" a (some t) none r, .mainMenu, emptyUD, .successMsg)
    | _, _, _, _ => (lg, .mainMenu, emptyUD, .errorMsg)
  | .cancel_operation => (lg, .mainMenu, emptyUD, .cancelMsg)

/-- Model of `select_member_subtract`: stores target id and name (fallback
`"Unknown"`) and asks for the amount. -/
def select_member_subtract (lg : DataState) (ud : UserData) (uid : Int) : HRes :=
  let nm := member_name lg.family_members uid "Unknown"
  (lg, .enterAmountSubtract, { ud with targetId := some uid, targetName := some nm }, .promptMsg)

/-- Model of `enter_amount_subtract`: re-prompts on bad numbers; then the early
sufficiency check — if the current balance of the target is below the
amount, reports the 🛑 has-only message and aborts to the menu with the
session cleared; otherwise stores the amount and asks for the reason.
Missing `target_id`/`target_name` raise and take the generic error
path, which also clears the session. -/
def enter_amount_subtract (lg : DataState) (ud : UserData) (s : String) : HRes :=
  match py_int s with
  | none => (lg, .enterAmountSubtract, ud, .repromptMsg)
  | some a =>
    if a ≤ 0 then (lg, .enterAmountSubtract, ud, .repromptMsg)
    else
      match ud.targetId, ud.targetName with
      | some t, some nm =>
        let current := pget lg.points t 0
        if current < a then
          (lg, .mainMenu, emptyUD, .insufficientMsg (insufficientText nm current))
        else
          (lg, .enterReasonSubtract, { ud with amount := some a }, .promptMsg)
      | _, _ => (lg, .mainMenu, emptyUD, .errorMsg)

/-- Model of `enter_reason_subtract`: same validation as `enter_reason_add`. -/
def enter_reason_subtract (lg : DataState) (ud : UserData) (s : String) : HRes :=
  let reason := py_strip s
  if bad_reason reason then (lg, .enterReasonSubtract, ud, .repromptMsg)
  else
    match ud.amount, ud.targetName with
    | some _, some _ => (lg, .confirmSubtract, { ud with reason := some reason }, .promptMsg)
    | _, _ => (lg, .enterReasonSubtract, ud, .errorMsg)

/-- Model of `confirm_subtract`: on `confirm`, reads the three session fields
(a missing one raises and is caught by the generic except clause,
leaving the ledger untouched), then performs
`points[str(target_id)] -= amount` — a KeyError on an absent key is
likewise caught with the ledger untouched — and records the activity.
There is no balance check here.  All paths clear the session. -/
def confirm_subtract (now perf : Int) (lg : DataState) (ud : UserData) (d : ConfirmData) : HRes :=
  match d with
  | .confirm =>
    match ud.targetId, ud.amount, ud.reason with
    | some t, some a, some r =>
      match pfind lg.points t with
      | some cur =>
        let lg1 := { lg with points := pset lg.points t (cur - a) }
        (record_activity lg1 now perf "subtract" a (some t) none r, .mainMenu, emptyUD, .successMsg)
      | none => (lg, .mainMenu, emptyUD, .errorMsg)
    | _, _, _ => (lg, .mainMenu, emptyUD, .errorMsg)
  | .cancel_operation => (lg, .mainMenu, emptyUD, .cancelMsg)

/-- Model of `select_from_transfer`: stores the source id and name (fallback
`"Unknown"`) and shows the target keyboard, which excludes the source
and includes the Car/goal pool. -/
def select_from_transfer (lg : DataState) (ud : UserData) (uid : Int) : HRes :=
  let nm := member_name lg.family_members uid "Unknown"
  (lg, .selectToTransfer, { ud with fromId := some uid, fromName := some nm }, .promptMsg)

/-- Model of `select_to_transfer`: resolves the target name (−1 is `"Car"`),
rejects picking the source itself (re-prompt, stay in the same state),
else stores the target and asks for the amount.  A missing `from_id`
raises an uncaught KeyError, which leaves the state unchanged. -/
def select_to_transfer (lg : DataState) (ud : UserData) (uid : Int) : HRes :=
  let nm := if uid == -1 then "Car" else member_name lg.family_members uid "Unknown"
  match ud.fromId with
  | some f =>
    if f == uid then (lg, .selectToTransfer, ud, .selfTransferMsg)
    else (lg, .enterAmountTransfer, { ud with toId := some uid, toName := some nm }, .promptMsg)
  | none => (lg, .selectToTransfer, ud, .errorMsg)

/-- Model of `enter_amount_transfer`: like `enter_amount_subtract`, but the early
sufficiency check is against the source balance. -/
def enter_amount_transfer (lg : DataState) (ud : UserData) (s : String) : HRes :=
  match py_int s with
  | none => (lg, .enterAmountTransfer, ud, .repromptMsg)
  | some a =>
    if a ≤ 0 then (lg, .enterAmountTransfer, ud, .repromptMsg)
    else
      match ud.fromId, ud.fromName with
      | some f, some nm =>
        let current := pget lg.points f 0
        if current < a then
          (lg, .mainMenu, emptyUD, .insufficientMsg (insufficientText nm current))
        else
          (lg, .enterReasonTransfer, { ud with amount := some a }, .promptMsg)
      | _, _ => (lg, .mainMenu, emptyUD, .errorMsg)

/-- Model of `enter_reason_transfer`: same validation as the other reason steps
(the confirmation prompt reads `amount`, `from_name` and `to_name`). -/
def enter_reason_transfer (lg : DataState) (ud : UserData) (s : String) : HRes :=
  let reason := py_strip s
  if bad_reason reason then (lg, .enterReasonTransfer, ud, .repromptMsg)
  else
    match ud.amount, ud.fromName, ud.toName with
    | some _, some _, some _ =>
      (lg, .confirmTransfer, { ud with reason := some reason }, .promptMsg)
    | _, _, _ => (lg, .enterReasonTransfer, ud, .errorMsg)

/-- Model of `confirm_transfer`: on `confirm`, reads the four session fields,
performs `points[str(from_id)] -= amount` (KeyError on an absent key is
caught by the generic except with the ledger untouched), credits the
goal pool for target −1 or the target balance otherwise, and records
the activity.  No self-transfer, eligibility or balance check happens
here.  All paths clear the session. -/
def confirm_transfer (now perf : Int) (lg : DataState) (ud : UserData) (d : ConfirmData) : HRes :=
  match d with
  | .confirm =>
    match ud.fromId, ud.toId, ud.amount, ud.reason with
    | some f, some t, some a, some r =>
      match pfind lg.points f with
      | some cur =>
        let lg1 := { lg with points := pset lg.points f (cur - a) }
        let lg2 :=
          if t == -1 then
            { lg1 with family_goal := { lg1.family_goal with points := lg1.family_goal.points + a } }
          else
            { lg1 with points := pset lg1.points t (pget lg1.points t 0 + a) }
        (record_activity lg2 now perf "transfer" a (some t) (some f) r, .mainMenu, emptyUD, .successMsg)
      | none => (lg, .mainMenu, emptyUD, .errorMsg)
    | _, _, _, _ => (lg, .mainMenu, emptyUD, .errorMsg)
  | .cancel_operation => (lg, .mainMenu, emptyUD, .cancelMsg)

/-- Model of `enter_new_member_name`: rejects an empty name or one containing
any digit; otherwise stores it and asks for the id. -/
def enter_new_member_name (lg : DataState) (ud : UserData) (s : String) : HRes :=
  let nm := py_strip s
  if nm.data.isEmpty || nm.data.any Char.isDigit then (lg, .addMemberName, ud, .repromptMsg)
  else (lg, .addMemberId, { ud with newMemberName := some nm }, .promptMsg)

/-- Model of `enter_new_member_id`: the id must parse as a positive integer. -/
def enter_new_member_id (lg : DataState) (ud : UserData) (s : String) : HRes :=
  match py_int s with
  | none => (lg, .addMemberId, ud, .repromptMsg)
  | some n =>
    if n ≤ 0 then (lg, .addMemberId, ud, .repromptMsg)
    else
      match ud.newMemberName with
      | some _ => (lg, .confirmAddMember, { ud with newMemberId := some n }, .promptMsg)
      | none => (lg, .addMemberId, ud, .errorMsg)

/-- Model of `confirm_add_member`: on `confirm`, calls `DataManager.add_member`;
on success an `add_member` activity is also recorded.  All paths clear
the session. -/
def confirm_add_member (now perf : Int) (lg : DataState) (ud : UserData) (d : ConfirmData) : HRes :=
  match d with
  | .confirm =>
    match ud.newMemberId, ud.newMemberName with
    | some mid, some nm =>
      match add_member lg mid nm with
      | (dm1, true, _) =>
        (record_activity dm1 now perf "add_member" 0 (some mid) none ("Added " ++ nm),
          .mainMenu, emptyUD, .successMsg)
      | (dm1, false, _) => (dm1, .mainMenu, emptyUD, .errorMsg)
    | _, _ => (lg, .mainMenu, emptyUD, .errorMsg)
  | .cancel_operation => (lg, .mainMenu, emptyUD, .cancelMsg)

/-- One step of a single user conversation, mirroring the
`ConversationHandler` table of `setup_handlers`.  The `/cancel` command
and the `main_menu` callback match no per-state handler (the text
handlers exclude commands and the callback patterns are disjoint from
them), so they always reach the fallbacks — the cross-cutting
interrupt.  A text message is routed by the handler of the current state; in
callback-only states it falls through to the fallback that keeps the
state.  Unmatched callbacks are ignored.  The add-member command is
admin-gated at entry and opens the add-member flow from the menu. -/
def stepSession (now perf : Int) (lg : DataState) (cs : ConvState) (ud : UserData) :
    Input → HRes
  | .cmdCancel => cancel_action lg
  | .backMain => start_command lg
  | .cmdStart => start_command lg
  | .cmdAddMember =>
    match cs with
    | .mainMenu => (lg, .addMemberName, ud, .promptMsg)
    | _ => (lg, cs, ud, .promptMsg)
  | .selectMember uid =>
    match cs with
    | .selectMemberAdd => select_member_add lg ud uid
    | .selectMemberSubtract => select_member_subtract lg ud uid
    | .selectFromTransfer => select_from_transfer lg ud uid
    | .selectToTransfer => select_to_transfer lg ud uid
    | _ => (lg, cs, ud, .promptMsg)
  | .confirmCb d =>
    match cs with
    | .confirmAdd => confirm_add now perf lg ud d
    | .confirmSubtract => confirm_subtract now perf lg ud d
    | .confirmTransfer => confirm_transfer now perf lg ud d
    | .confirmAddMember => confirm_add_member now perf lg ud d
    | _ => (lg, cs, ud, .promptMsg)
  | .text s =>
    match cs with
    | .mainMenu =>
      (match menuChoiceOf s with
       | some t => handle_main_menu lg ud t
       | none => (lg, .mainMenu, ud, .promptMsg))
    | .enterAmountAdd => enter_amount_add lg ud s
    | .enterReasonAdd => enter_reason_add lg ud s
    | .enterAmountSubtract => enter_amount_subtract lg ud s
    | .enterReasonSubtract => enter_reason_subtract lg ud s
    | .enterAmountTransfer => enter_amount_transfer lg ud s
    | .enterReasonTransfer => enter_reason_transfer lg ud s
    | .addMemberName => enter_new_member_name lg ud s
    | .addMemberId => enter_new_member_id lg ud s
    | _ => (lg, cs, ud, .promptMsg)

/-- One step without the reported output: the persistent part of the
system (shared ledger, conversation state, session dictionary). -/
def stepS (now perf : Int) (s : DataState × ConvState × UserData) (i : Input) :
    DataState × ConvState × UserData :=
  let r := stepSession now perf s.1 s.2.1 s.2.2 i
  (r.1, r.2.1, r.2.2.1)

/-- A whole sequence of inputs from one user, folded over `stepS`. -/
def runSession (now perf : Int) (s : DataState × ConvState × UserData)
    (is : List Input) : DataState × ConvState × UserData :=
  is.foldl (stepS now perf) s

/-- The compiled-in member ids, named for readability. -/
def papaId : Int := 15260416

def mamaId : Int := 441113371

def danyaId : Int := 1059153162

def vladId : Int := 5678069063

def timaId : Int := 5863747570

/-- The invariant of claim C10: every registered member id has an entry
in the points map. -/
def coveredB (dm : DataState) : Bool :=
  dm.family_members.all (fun p => pmem dm.points p.1)

/-- The inputs of one complete subtract dialogue up to (not including)
the confirmation press. -/
def subtract_flow (target : Int) (amount reason : String) : List Input :=
  [.text "➖ Subtract Points", .selectMember target, .text amount, .text reason]

/-- Start state for the C1 run: default members, Vlad holding 5 points. -/
def c1lg : DataState :=
  { default_state with points := pset default_state.points vladId 5 }

/-- C1 run, step 1: Mama walks a subtract dialogue (Vlad, 5 points) up
to the confirmation prompt; the sufficiency check of the amount step passes
(5 ≥ 5).  The ledger is untouched so far. -/
def c1sA : DataState × ConvState × UserData :=
  runSession 0 mamaId (c1lg, .mainMenu, emptyUD) (subtract_flow vladId "5" "broke a rule")

/-- C1 run, step 2: Papa, in his own independent session, walks the
same subtract dialogue against the shared ledger; his sufficiency check
also passes against the still-unchanged balance 5. -/
def c1sB : DataState × ConvState × UserData :=
  runSession 0 papaId (c1sA.1, .mainMenu, emptyUD) (subtract_flow vladId "5" "late again")

/-- C1 run, step 3: Mama confirms; her commit subtracts 5 unchecked. -/
def c1sA2 : DataState × ConvState × UserData :=
  stepS 0 mamaId (c1sB.1, c1sA.2.1, c1sA.2.2) (.confirmCb .confirm)

/-- C1 run, step 4: Papa confirms; his commit subtracts another 5 from
the now-zero balance, with no balance check at confirmation time. -/
def c1sB2 : DataState × ConvState × UserData :=
  stepS 0 papaId (c1sA2.1, c1sB.2.1, c1sB.2.2) (.confirmCb .confirm)

/-- The shared ledger at the end of the C1 run. -/
def c1Final : DataState := c1sB2.1

/-- Ledger for the C2 witness: default members, Tima holding 30. -/
def c2lg : DataState :=
  { default_state with points := pset default_state.points timaId 30 }

/-- Pending request for the C2 witness: transfer 10 Tima → Danya. -/
def c2ud : UserData :=
  { emptyUD with
      fromId := some timaId
      fromName := some "Tima"
      toId := some danyaId
      toName := some "Danya"
      amount := some 10
      reason := some "gift" }

/-- Ledger for the C3 witness: default members, Vlad holding 5. -/
def c3lg : DataState :=
  { default_state with points := pset default_state.points vladId 5 }

/-- Session dictionary for the C3 witness: subtract target Vlad. -/
def c3ud : UserData :=
  { emptyUD with
      targetId := some vladId
      targetName := some "Vlad" }

/-- Ledger for the C4 counterexample: default members, Danya holding 10. -/
def c4lg : DataState :=
  { default_state with points := pset default_state.points danyaId 10 }

/-- A pending self-transfer request (source = target = Danya), the kind
of request the claim says the engine must reject at commit. -/
def c4ud : UserData :=
  { emptyUD with
      fromId := some danyaId
      fromName := some "Danya"
      toId := some danyaId
      toName := some "Danya"
      amount := some 5
      reason := some "x" }

/-- A pending credit request whose reason is the digits-only string
`"123"`, handed directly to the commit step. -/
def c5ud : UserData :=
  { emptyUD with
      targetId := some danyaId
      targetName := some "Danya"
      amount := some 10
      reason := some "123" }

/-- Ledger for the C6 runs: default members, Tima holding 30. -/
def c6lg : DataState :=
  { default_state with points := pset default_state.points timaId 30 }

/-- The session dictionary `select_from_transfer` builds when the
goal-pool id −1 is injected as transfer source: the registry lookup
falls back to the name Unknown. -/
def c6udPool : UserData :=
  { emptyUD with
      fromId := some (-1)
      fromName := some "Unknown" }

/-- C6 run: inject the pool as source, pick Tima as target, then enter
amount 5; the state just before the amount entry. -/
def c6mid : DataState × ConvState × UserData :=
  runSession 0 papaId (c6lg, .selectFromTransfer, emptyUD)
    [.selectMember (-1), .selectMember timaId]

/-- Pending request for the C6 witness: transfer 10 Tima → goal pool. -/
def c6ud2 : UserData :=
  { emptyUD with
      fromId := some timaId
      fromName := some "Tima"
      toId := some (-1)
      toName := some "Car"
      amount := some 10
      reason := some "saving up" }

/-- A concrete history entry with timestamp 5, used against cutoff 90. -/
def c7entry : Entry :=
  { timestamp := 5
    performer_id := papaId
    performer := "Papa"
    action := "add"
    amount := 1
    reason := "chores"
    target_id := some danyaId
    target := some "Danya"
    source_id := none
    source := none }

theorem pfind_pset_self (m : List (Int × Int)) (k v : Int) :
    pfind (pset m k v) k = some v := by
  induction m with
  | nil => simp [pset, pfind]
  | cons p rest ih =>
    by_cases h : p.1 = k
    · simp [pset, pfind, h]
    · simp [pset, pfind, h, ih]

theorem pfind_pset_ne (m : List (Int × Int)) (k k' v : Int) (h : k' ≠ k) :
    pfind (pset m k v) k' = pfind m k' := by
  induction m with
  | nil => simp [pset, pfind, Ne.symm h]
  | cons p rest ih =>
    by_cases hp : p.1 = k
    · simp [pset, pfind, hp, Ne.symm h]
    · by_cases hq : p.1 = k'
      · simp [pset, pfind, hp, hq, h]
      · simp [pset, pfind, hp, hq, ih]

theorem pget_pset_self (m : List (Int × Int)) (k v d : Int) :
    pget (pset m k v) k d = v := by
  simp [pget, pfind_pset_self]

theorem pget_pset_ne (m : List (Int × Int)) (k k' v d : Int) (h : k' ≠ k) :
    pget (pset m k v) k' d = pget m k' d := by
  simp [pget, pfind_pset_ne m k k' v h]

theorem pmem_pset_self (m : List (Int × Int)) (k v : Int) :
    pmem (pset m k v) k = true := by
  simp [pmem, pfind_pset_self]

theorem pmem_pset (m : List (Int × Int)) (k k' v : Int) (h : pmem m k = true) :
    pmem (pset m k' v) k = true := by
  by_cases hk : k = k'
  · subst hk; exact pmem_pset_self m k v
  · simpa [pmem, pfind_pset_ne m k' k v hk] using h

theorem fillPoints_cons (p : Int × String) (ms : List (Int × String))
    (pts : List (Int × Int)) :
    fillPoints (p :: ms) pts
      = fillPoints ms (if pmem pts p.1 then pts else pset pts p.1 0) := rfl

theorem pmem_fillPoints_of_pmem (ms : List (Int × String)) (pts : List (Int × Int))
    (k : Int) (h : pmem pts k = true) : pmem (fillPoints ms pts) k = true := by
  induction ms generalizing pts with
  | nil => simpa [fillPoints] using h
  | cons p rest ih =>
    rw [fillPoints_cons]
    by_cases hp : pmem pts p.1
    · simpa [hp] using ih pts h
    · simpa [hp] using ih (pset pts p.1 0) (pmem_pset pts k p.1 0 h)

theorem pmem_fillPoints_of_mem (ms : List (Int × String)) (pts : List (Int × Int))
    (k : Int) (nm : String) (h : (k, nm) ∈ ms) :
    pmem (fillPoints ms pts) k = true := by
  induction ms generalizing pts with
  | nil => cases h
  | cons p rest ih =>
    rw [fillPoints_cons]
    rcases List.mem_cons.mp h with heq | hmem
    · have hk : p.1 = k := by rw [← heq]
      by_cases hp : pmem pts p.1 = true
      · rw [if_pos hp]
        exact pmem_fillPoints_of_pmem rest pts k (hk ▸ hp)
      · rw [if_neg hp]
        have hmem2 : pmem (pset pts p.1 0) k = true := by
          rw [hk]; exact pmem_pset_self pts k 0
        exact pmem_fillPoints_of_pmem rest (pset pts p.1 0) k hmem2
    · exact ih _ hmem

theorem all_pmem_pset (ms : List (Int × String)) (pts : List (Int × Int)) (k v : Int)
    (h : ms.all (fun p => pmem pts p.1) = true) :
    ms.all (fun p => pmem (pset pts k v) p.1) = true := by
  simp only [List.all_eq_true] at h ⊢
  intro p hp
  exact pmem_pset pts p.1 k v (h p hp)

theorem handle_main_menu_fst (lg : DataState) (ud : UserData) (t : MenuChoice) :
    (handle_main_menu lg ud t).1 = lg := by
  cases t <;> rfl

theorem select_to_transfer_fst (lg : DataState) (ud : UserData) (uid : Int) :
    (select_to_transfer lg ud uid).1 = lg := by
  unfold select_to_transfer
  try dsimp only
  repeat' split
  all_goals rfl

theorem enter_amount_add_fst (lg : DataState) (ud : UserData) (s : String) :
    (enter_amount_add lg ud s).1 = lg := by
  unfold enter_amount_add
  try dsimp only
  repeat' split
  all_goals rfl

theorem enter_reason_add_fst (lg : DataState) (ud : UserData) (s : String) :
    (enter_reason_add lg ud s).1 = lg := by
  unfold enter_reason_add
  try dsimp only
  repeat' split
  all_goals rfl

theorem enter_amount_subtract_fst (lg : DataState) (ud : UserData) (s : String) :
    (enter_amount_subtract lg ud s).1 = lg := by
  unfold enter_amount_subtract
  try dsimp only
  repeat' split
  all_goals rfl

theorem enter_reason_subtract_fst (lg : DataState) (ud : UserData) (s : String) :
    (enter_reason_subtract lg ud s).1 = lg := by
  unfold enter_reason_subtract
  try dsimp only
  repeat' split
  all_goals rfl

theorem enter_amount_transfer_fst (lg : DataState) (ud : UserData) (s : String) :
    (enter_amount_transfer lg ud s).1 = lg := by
  unfold enter_amount_transfer
  try dsimp only
  repeat' split
  all_goals rfl

theorem enter_reason_transfer_fst (lg : DataState) (ud : UserData) (s : String) :
    (enter_reason_transfer lg ud s).1 = lg := by
  unfold enter_reason_transfer
  try dsimp only
  repeat' split
  all_goals rfl

theorem enter_new_member_name_fst (lg : DataState) (ud : UserData) (s : String) :
    (enter_new_member_name lg ud s).1 = lg := by
  unfold enter_new_member_name
  try dsimp only
  repeat' split
  all_goals rfl

theorem enter_new_member_id_fst (lg : DataState) (ud : UserData) (s : String) :
    (enter_new_member_id lg ud s).1 = lg := by
  unfold enter_new_member_id
  try dsimp only
  repeat' split
  all_goals rfl

theorem coveredB_record_activity (dm : DataState) (now pid : Int) (act : String)
    (amt : Int) (tid sid : Option Int) (r : String) (h : coveredB dm = true) :
    coveredB (record_activity dm now pid act amt tid sid r) = true := by
  simpa [coveredB, record_activity] using h

theorem coveredB_points_pset (lg : DataState) (k v : Int) (h : coveredB lg = true) :
    coveredB { lg with points := pset lg.points k v } = true := by
  simp only [coveredB] at h ⊢
  exact all_pmem_pset lg.family_members lg.points k v h

theorem coveredB_goal_update (lg : DataState) (g : FamilyGoal) (h : coveredB lg = true) :
    coveredB { lg with family_goal := g } = true := by
  simpa [coveredB] using h

theorem confirm_add_covered (now perf : Int) (lg : DataState) (ud : UserData)
    (d : ConfirmData) (h : coveredB lg = true) :
    coveredB (confirm_add now perf lg ud d).1 = true := by
  unfold confirm_add
  try dsimp only
  repeat' split
  all_goals
    first
      | exact h
      | exact coveredB_record_activity _ _ _ _ _ _ _ _ (coveredB_goal_update lg _ h)
      | exact coveredB_record_activity _ _ _ _ _ _ _ _ (coveredB_points_pset lg _ _ h)

theorem confirm_subtract_covered (now perf : Int) (lg : DataState) (ud : UserData)
    (d : ConfirmData) (h : coveredB lg = true) :
    coveredB (confirm_subtract now perf lg ud d).1 = true := by
  unfold confirm_subtract
  try dsimp only
  repeat' split
  all_goals
    first
      | exact h
      | exact coveredB_record_activity _ _ _ _ _ _ _ _ (coveredB_points_pset lg _ _ h)

theorem confirm_transfer_covered (now perf : Int) (lg : DataState) (ud : UserData)
    (d : ConfirmData) (h : coveredB lg = true) :
    coveredB (confirm_transfer now perf lg ud d).1 = true := by
  unfold confirm_transfer
  try dsimp only
  repeat' split
  all_goals
    first
      | exact h
      | exact coveredB_record_activity _ _ _ _ _ _ _ _
          (coveredB_goal_update _ _ (coveredB_points_pset lg _ _ h))
      | exact coveredB_record_activity _ _ _ _ _ _ _ _
          (coveredB_points_pset _ _ _ (coveredB_points_pset lg _ _ h))

theorem coveredB_add_member (dm : DataState) (mid : Int) (nm : String)
    (h : coveredB dm = true) : coveredB (add_member dm mid nm).1 = true := by
  unfold add_member
  split
  · exact h
  · have h1 := all_pmem_pset dm.family_members dm.points mid 0 (by simpa [coveredB] using h)
    simp [coveredB, List.all_append, h1, pmem_pset_self]

theorem confirm_add_member_covered (now perf : Int) (lg : DataState) (ud : UserData)
    (d : ConfirmData) (h : coveredB lg = true) :
    coveredB (confirm_add_member now perf lg ud d).1 = true := by
  unfold confirm_add_member
  try dsimp only
  repeat' split
  all_goals
    first
      | exact h
      | (rename_i mid nm hmid hnm x dm1 msg hadd
         have hc := coveredB_add_member lg mid nm h
         rw [hadd] at hc
         first
           | exact coveredB_record_activity _ _ _ _ _ _ _ _ hc
           | exact hc)

theorem stepS_covered (now perf : Int) (s : DataState × ConvState × UserData)
    (i : Input) (h : coveredB s.1 = true) :
    coveredB (stepS now perf s i).1 = true := by
  obtain ⟨lg, cs, ud⟩ := s
  cases i with
  | cmdCancel => simpa [stepS, stepSession, cancel_action] using h
  | backMain => simpa [stepS, stepSession, start_command] using h
  | cmdStart => simpa [stepS, stepSession, start_command] using h
  | cmdAddMember => cases cs <;> simpa [stepS, stepSession] using h
  | selectMember uid =>
    cases cs <;> simp only [stepS, stepSession] <;>
      first
        | exact h
        | simpa [select_member_add] using h
        | simpa [select_member_subtract] using h
        | simpa [select_from_transfer] using h
        | (rw [select_to_transfer_fst]; exact h)
  | confirmCb d =>
    cases cs <;> simp only [stepS, stepSession] <;>
      first
        | exact h
        | exact confirm_add_covered now perf lg ud d h
        | exact confirm_subtract_covered now perf lg ud d h
        | exact confirm_transfer_covered now perf lg ud d h
        | exact confirm_add_member_covered now perf lg ud d h
  | text s =>
    cases cs <;> simp only [stepS, stepSession] <;>
      first
        | exact h
        | (rw [enter_amount_add_fst]; exact h)
        | (rw [enter_reason_add_fst]; exact h)
        | (rw [enter_amount_subtract_fst]; exact h)
        | (rw [enter_reason_subtract_fst]; exact h)
        | (rw [enter_amount_transfer_fst]; exact h)
        | (rw [enter_reason_transfer_fst]; exact h)
        | (rw [enter_new_member_name_fst]; exact h)
        | (rw [enter_new_member_id_fst]; exact h)
        | (rcases hm : menuChoiceOf s with _ | t <;> simp only [hm] <;>
            first
              | exact h
              | (rw [handle_main_menu_fst]; exact h))

theorem runSession_cons (now perf : Int) (s : DataState × ConvState × UserData)
    (i : Input) (rest : List Input) :
    runSession now perf s (i :: rest) = runSession now perf (stepS now perf s i) rest := rfl

theorem runSession_covered (now perf : Int) (is : List Input)
    (s : DataState × ConvState × UserData) (h : coveredB s.1 = true) :
    coveredB (runSession now perf s is).1 = true := by
  induction is generalizing s with
  | nil => simpa [runSession] using h
  | cons i rest ih =>
    rw [runSession_cons]
    exact ih _ (stepS_covered now perf s i h)

theorem coveredB_load (li : LoadInput) : coveredB (load_data li) = true := by
  cases li with
  | missing => decide
  | corrupt => decide
  | parsed pts hist mems goal =>
    simp only [load_data, coveredB, List.all_eq_true]
    intro p hp
    exact pmem_fillPoints_of_mem _ _ p.1 p.2 (by rw [Prod.mk.eta]; exact hp)

/-- C1: the claim says no committed debit may ever drive a balance
negative and that the confirmation step itself checks
`balance[t] >= a`.  The code checks only at the amount-entry step; the
commit in `confirm_subtract` subtracts unconditionally.  Two
independent sessions each pass the entry check against the balance
of 5 held by Vlad, then both confirm: both commits succeed and Vlad ends at −5. -/
theorem C1_interleaved_debits_drive_balance_negative :
    pget c1lg.points vladId 0 = 5
    ∧ pget c1Final.points vladId 0 = -5
    ∧ c1Final.history.length = 2
    ∧ c1Final.history.all (fun e => e.action == "subtract") = true := by decide

/-- C8 counterexample: on corrupt durable state, `load_data` does not
return empty structures — the registry and balance map come back with
the five compiled-in default members. -/
theorem C8_load_on_corrupt_not_empty :
    (load_data .corrupt).family_members ≠ [] ∧ (load_data .corrupt).points ≠ [] := by
  decide

/-- C8 (amended): on a missing or corrupt durable state file,
`load_data` falls back to the compiled-in defaults — the five initial
members, every balance 0, empty history — rather than raising the
read/parse error. -/
theorem C8_load_fails_soft_to_defaults :
    load_data .missing = default_state
    ∧ load_data .corrupt = default_state
    ∧ default_state.family_members = initial_members
    ∧ default_state.history = []
    ∧ default_state.points.all (fun p => p.2 == 0) = true := by decide

/-- C9: the cancel command and the main-menu back callback reach the
conversation fallbacks from every state: they return the session to
the menu, clear the whole pending-request dictionary and leave the
ledger untouched; a start from the menu likewise begins with an empty
pending request and an untouched ledger. -/
theorem C9_cancel_is_global_and_start_is_fresh (now perf : Int) (lg : DataState)
    (cs : ConvState) (ud : UserData) :
    stepSession now perf lg cs ud Input.cmdCancel
      = (lg, ConvState.mainMenu, emptyUD, Output.cancelMsg)
    ∧ stepSession now perf lg cs ud Input.backMain
      = (lg, ConvState.mainMenu, emptyUD, Output.menuMsg)
    ∧ stepSession now perf lg ConvState.mainMenu emptyUD Input.cmdStart
      = (lg, ConvState.mainMenu, emptyUD, Output.menuMsg) :=
  ⟨rfl, rfl, rfl⟩

/-- C10: from any loaded state, after any sequence of dialogue inputs,
every registered member id has an entry in the points map — load fills
missing balances with 0 and a successful add-member initializes the
new balance to 0, and no operation removes a points entry. -/
theorem C10_registry_keys_subset_of_balance_keys (li : LoadInput) (is : List Input)
    (now perf : Int) :
    coveredB (runSession now perf (load_data li, ConvState.mainMenu, emptyUD) is).1 = true :=
  runSession_covered now perf is _ (coveredB_load li)

/-- C3: a debit attempt whose amount exceeds the current balance of
the target is rejected at the amount step: the session aborts to the menu
with the pending request discarded, the ledger (balances and history)
is completely unchanged, and the reported message renders the current
balance of the target. -/
theorem C3_insufficient_debit_rejected (lg : DataState) (ud : UserData) (t a : Int)
    (nm s : String)
    (ht : ud.targetId = some t) (hn : ud.targetName = some nm)
    (hs : py_int s = some a) (hpos : 0 < a)
    (hlow : pget lg.points t 0 < a) :
    enter_amount_subtract lg ud s
      = (lg, ConvState.mainMenu, emptyUD,
          Output.insufficientMsg (insufficientText nm (pget lg.points t 0)))
    ∧ ∃ pre post, insufficientText nm (pget lg.points t 0)
        = pre ++ toString (pget lg.points t 0) ++ post := by
  constructor
  · simp only [enter_amount_subtract, hs, ht, hn]
    rw [if_neg (by omega : ¬ a ≤ 0), if_pos hlow]
  · exact ⟨"🛑 " ++ nm ++ " has only ", " points.", rfl⟩

/-- C3 witness: Vlad holds 5; a debit of 20 is rejected with the
has-only-5 message and nothing changes. -/
theorem C3_insufficient_debit_rejected_witness :
    py_int "20" = some 20 ∧ (0 : Int) < 20 ∧ pget c3lg.points vladId 0 < 20
    ∧ (enter_amount_subtract c3lg c3ud "20"
        = (c3lg, ConvState.mainMenu, emptyUD,
            Output.insufficientMsg (insufficientText "Vlad" (pget c3lg.points vladId 0)))
      ∧ ∃ pre post, insufficientText "Vlad" (pget c3lg.points vladId 0)
          = pre ++ toString (pget c3lg.points vladId 0) ++ post) :=
  ⟨by decide, by decide, by decide,
    C3_insufficient_debit_rejected c3lg c3ud vladId 20 "Vlad" "20" rfl rfl (by decide)
      (by decide) (by decide)⟩

/-- C4 counterexample: a pending request with source = target = Danya,
handed to the commit step, is not rejected — `confirm_transfer` has no
self-transfer check and reports success, appending a history entry. -/
theorem C4_self_transfer_commit_not_rejected :
    c4ud.fromId = c4ud.toId
    ∧ (confirm_transfer 0 papaId c4lg c4ud .confirm).2.2.2 = Output.successMsg
    ∧ (confirm_transfer 0 papaId c4lg c4ud .confirm).1.history.length
        = c4lg.history.length + 1 := by decide

/-- C4 (amended): the self-transfer rejection lives in the
target-selection step of the dialogue: picking the stored source as
recipient re-prompts, keeps the session in the same state with the
same pending data, and leaves the ledger untouched. -/
theorem C4_self_transfer_rejected_at_selection (lg : DataState) (ud : UserData)
    (f : Int) (hf : ud.fromId = some f) :
    select_to_transfer lg ud f
      = (lg, ConvState.selectToTransfer, ud, Output.selfTransferMsg) := by
  simp [select_to_transfer, hf]

/-- C4 witness: with Danya stored as source, selecting Danya as
recipient is rejected in place. -/
theorem C4_self_transfer_rejected_at_selection_witness :
    select_to_transfer c4lg c4ud danyaId
      = (c4lg, ConvState.selectToTransfer, c4ud, Output.selfTransferMsg) :=
  C4_self_transfer_rejected_at_selection c4lg c4ud danyaId rfl

/-- C5 counterexample: the commit step performs no reason validation —
a pending credit whose reason is the digits-only string 123 commits,
mutating the balance and appending a history entry with that reason. -/
theorem C5_digit_reason_reaches_commit :
    bad_reason "123" = true
    ∧ (confirm_add 0 papaId default_state c5ud .confirm).2.2.2 = Output.successMsg
    ∧ pget (confirm_add 0 papaId default_state c5ud .confirm).1.points danyaId 0 = 10
    ∧ (confirm_add 0 papaId default_state c5ud .confirm).1.history.map (fun e => e.reason)
        = ["123"] := by decide

/-- C5 (amended): the reason validation lives in the reason-entry
steps of the dialogue, with the identical check in all three flows: an
empty-after-strip or digits-only reason re-prompts in place, with no
state advance, no balance mutation and no history entry. -/
theorem C5_reason_validated_in_dialogue_steps (lg : DataState) (ud : UserData)
    (s : String) (h : bad_reason (py_strip s) = true) :
    enter_reason_add lg ud s = (lg, ConvState.enterReasonAdd, ud, Output.repromptMsg)
    ∧ enter_reason_subtract lg ud s
      = (lg, ConvState.enterReasonSubtract, ud, Output.repromptMsg)
    ∧ enter_reason_transfer lg ud s
      = (lg, ConvState.enterReasonTransfer, ud, Output.repromptMsg) := by
  refine ⟨?_, ?_, ?_⟩ <;>
    simp [enter_reason_add, enter_reason_subtract, enter_reason_transfer, h]

/-- C5 witness: the digits-only reason 123 is rejected in place at the
reason step of the credit flow. -/
theorem C5_reason_validated_in_dialogue_steps_witness :
    bad_reason (py_strip "123") = true
    ∧ enter_reason_add default_state emptyUD "123"
      = (default_state, ConvState.enterReasonAdd, emptyUD, Output.repromptMsg) :=
  ⟨by decide,
    (C5_reason_validated_in_dialogue_steps default_state emptyUD "123" (by decide)).1⟩

/-- C2: a successful confirmed transfer of amount a from source f to a
distinct target t decreases the source balance by exactly a, increases
the target balance (or the points of the goal pool when t = −1) by exactly
a, and appends exactly one history entry recording the transfer
operation with both source and target. -/
theorem C2_transfer_atomicity (now perf : Int) (lg : DataState) (ud : UserData)
    (f t a cur : Int) (r : String)
    (hf : ud.fromId = some f) (ht : ud.toId = some t) (ha : ud.amount = some a)
    (hr : ud.reason = some r) (hne : f ≠ t) (hpos : 0 < a)
    (hcur : pfind lg.points f = some cur) :
    ∃ e : Entry,
      (confirm_transfer now perf lg ud .confirm).1.history = lg.history ++ [e]
      ∧ e.action = "transfer"
      ∧ e.source_id = some f
      ∧ e.target_id = some t
      ∧ e.amount = a
      ∧ e.reason = r
      ∧ pget (confirm_transfer now perf lg ud .confirm).1.points f 0
          = pget lg.points f 0 - a
      ∧ (t = -1 →
          (confirm_transfer now perf lg ud .confirm).1.family_goal.points
            = lg.family_goal.points + a)
      ∧ (t ≠ -1 →
          pget (confirm_transfer now perf lg ud .confirm).1.points t 0
            = pget lg.points t 0 + a)
      ∧ (confirm_transfer now perf lg ud .confirm).2.2.2 = Output.successMsg := by
  by_cases htm : t = -1
  · subst htm
    simp [confirm_transfer, hf, ht, ha, hr, hcur, record_activity, pget,
      pfind_pset_self]
  · have htb : (t == -1) = false := by simpa using htm
    simp [confirm_transfer, hf, ht, ha, hr, hcur, htb, htm, record_activity, pget,
      pfind_pset_self, pfind_pset_ne, hne, Ne.symm hne]

/-- C2 witness: Tima (balance 30) transfers 10 to Danya. -/
theorem C2_transfer_atomicity_witness :
    (0 : Int) < 10 ∧ timaId ≠ danyaId ∧ pfind c2lg.points timaId = some 30
    ∧ ∃ e : Entry,
      (confirm_transfer 0 papaId c2lg c2ud .confirm).1.history = c2lg.history ++ [e]
      ∧ e.action = "transfer"
      ∧ e.source_id = some timaId
      ∧ e.target_id = some danyaId
      ∧ e.amount = 10
      ∧ e.reason = "gift"
      ∧ pget (confirm_transfer 0 papaId c2lg c2ud .confirm).1.points timaId 0
          = pget c2lg.points timaId 0 - 10
      ∧ (danyaId = -1 →
          (confirm_transfer 0 papaId c2lg c2ud .confirm).1.family_goal.points
            = c2lg.family_goal.points + 10)
      ∧ (danyaId ≠ -1 →
          pget (confirm_transfer 0 papaId c2lg c2ud .confirm).1.points danyaId 0
            = pget c2lg.points danyaId 0 + 10)
      ∧ (confirm_transfer 0 papaId c2lg c2ud .confirm).2.2.2 = Output.successMsg :=
  ⟨by decide, by decide, by decide,
    C2_transfer_atomicity 0 papaId c2lg c2ud timaId danyaId 10 30 "gift"
      rfl rfl rfl rfl (by decide) (by decide) (by decide)⟩

/-- C6 counterexample: with the goal-pool id −1 injected as transfer
source (its keyboard never offers it), the attempt fails at the amount
step with the ordinary has-only-0-points insufficiency message — the
balance of the pool is not in the points map, so the early check reads 0 —
not with a distinct TransferSourceIneligible rejection; the ledger is
unchanged. -/
theorem C6_pool_source_fails_as_zero_balance :
    c6mid.2.2.fromId = some (-1)
    ∧ pget c6lg.points timaId 0 = 30
    ∧ stepSession 0 papaId c6mid.1 c6mid.2.1 c6mid.2.2 (Input.text "5")
      = (c6lg, ConvState.mainMenu, emptyUD,
          Output.insufficientMsg (insufficientText "Unknown" 0)) := by decide

/-- C6 (amended): the pool is never offered on the transfer-source
keyboard; an injected pool-source attempt is rejected at the amount
step with the has-only-0 insufficiency message (the pool holds no
points-map entry) and the ledger is unchanged; a confirmed transfer of
a from a funded member into the pool adds exactly a to the points of
the pool and removes exactly a from the member. -/
theorem C6_pool_transfer_policy (now perf : Int) (lg : DataState) (ud ud2 : UserData)
    (nm r s : String) (a m cur : Int)
    (hmem : lg.family_members.all (fun p => p.1 != -1) = true)
    (hpool : pfind lg.points (-1) = none)
    (hud : ud.fromId = some (-1)) (hnm : ud.fromName = some nm)
    (hs : py_int s = some a) (hpos : 0 < a)
    (h2f : ud2.fromId = some m) (h2t : ud2.toId = some (-1)) (h2a : ud2.amount = some a)
    (h2r : ud2.reason = some r) (hm : pfind lg.points m = some cur) :
    (get_member_selection_keyboard lg.family_members none false).all
        (fun uid => uid != -1) = true
    ∧ enter_amount_transfer lg ud s
      = (lg, ConvState.mainMenu, emptyUD, Output.insufficientMsg (insufficientText nm 0))
    ∧ (confirm_transfer now perf lg ud2 .confirm).1.family_goal.points
      = lg.family_goal.points + a
    ∧ pget (confirm_transfer now perf lg ud2 .confirm).1.points m 0 = cur - a := by
  refine ⟨?_, ?_, ?_, ?_⟩
  · simp only [get_member_selection_keyboard, Bool.false_eq_true, if_false,
      List.append_nil, List.all_eq_true]
    intro uid hu
    obtain ⟨p, hp, rfl⟩ := List.mem_map.mp hu
    exact List.all_eq_true.mp hmem p (List.mem_filter.mp hp).1
  · simp [enter_amount_transfer, hs, hud, hnm, pget, hpool, hpos,
      show ¬ a ≤ 0 by omega]
  · simp [confirm_transfer, h2f, h2t, h2a, h2r, hm, record_activity]
  · simp [confirm_transfer, h2f, h2t, h2a, h2r, hm, record_activity, pget,
      pfind_pset_self]

/-- C6 witness: the keyboard fact, the injected pool-source rejection
at amount 10, and Tima (balance 30) moving 10 into the pool. -/
theorem C6_pool_transfer_policy_witness :
    py_int "10" = some 10 ∧ pfind c6lg.points (-1) = none
    ∧ pfind c6lg.points timaId = some 30
    ∧ ((get_member_selection_keyboard c6lg.family_members none false).all
          (fun uid => uid != -1) = true
      ∧ enter_amount_transfer c6lg c6udPool "10"
        = (c6lg, ConvState.mainMenu, emptyUD,
            Output.insufficientMsg (insufficientText "Unknown" 0))
      ∧ (confirm_transfer 0 papaId c6lg c6ud2 .confirm).1.family_goal.points
        = c6lg.family_goal.points + 10
      ∧ pget (confirm_transfer 0 papaId c6lg c6ud2 .confirm).1.points timaId 0
        = 30 - 10) :=
  ⟨by decide, by decide, by decide,
    C6_pool_transfer_policy 0 papaId c6lg c6udPool c6ud2 "Unknown" "saving up" "10"
      10 timaId 30 (by decide) (by decide) rfl rfl (by decide) (by decide)
      rfl rfl rfl rfl (by decide)⟩

/-- C7 counterexample: pruning one entry strictly older than the
cutoff removes it and triggers the save, but the return value of the
operation is `none` (the Python method is annotated `-> None` and only
logs the count), not the count 1 the claim requires. -/
theorem C7_purge_returns_no_count :
    (purge_old_history 100 10 [c7entry]).1 = []
    ∧ (purge_old_history 100 10 [c7entry]).2.1 = true
    ∧ [c7entry].length - (purge_old_history 100 10 [c7entry]).1.length = 1
    ∧ (purge_old_history 100 10 [c7entry]).2.2 = none
    ∧ (purge_old_history 100 10 [c7entry]).2.2 ≠ some 1 := by decide

/-- C7 (amended): pruning with cutoff now − d keeps exactly the
entries with timestamp at least the cutoff (so it removes exactly the
strictly older ones and none newer), the number removed is exactly the
number of strictly-older entries, the save is triggered exactly when at
least one entry was removed, and the operation returns no count —
`none` — merely logging the number removed. -/
theorem C7_purge_exact_and_persist_iff (now d : Int) (h : List Entry) :
    (purge_old_history now d h).1 = h.filter (fun e => decide (now - d ≤ e.timestamp))
    ∧ h.length - (purge_old_history now d h).1.length
      = (h.filter (fun e => decide (e.timestamp < now - d))).length
    ∧ ((purge_old_history now d h).2.1 = true
        ↔ 0 < (h.filter (fun e => decide (e.timestamp < now - d))).length)
    ∧ (purge_old_history now d h).2.2 = none := by
  have hsum : (h.filter (fun e => decide (now - d ≤ e.timestamp))).length
      + (h.filter (fun e => decide (e.timestamp < now - d))).length = h.length := by
    induction h with
    | nil => simp
    | cons e rest ih =>
      by_cases hc : now - d ≤ e.timestamp
      · have hc2 : ¬ e.timestamp < now - d := by omega
        have hb1 : decide (now - d ≤ e.timestamp) = true := decide_eq_true hc
        have hb2 : decide (e.timestamp < now - d) = false := decide_eq_false hc2
        simp only [List.filter_cons, hb1, hb2, eq_self_iff_true, if_true,
          Bool.false_eq_true, if_false, List.length_cons]
        omega
      · have hc2 : e.timestamp < now - d := by omega
        have hb1 : decide (now - d ≤ e.timestamp) = false := decide_eq_false hc
        have hb2 : decide (e.timestamp < now - d) = true := decide_eq_true hc2
        simp only [List.filter_cons, hb1, hb2, eq_self_iff_true, if_true,
          Bool.false_eq_true, if_false, List.length_cons]
        omega
  refine ⟨rfl, ?_, ?_, rfl⟩
  · dsimp only [purge_old_history]
    omega
  · dsimp only [purge_old_history]
    rw [decide_eq_true_eq]
    omega
